import Mathlib

/-!
# Verification of the hydromt_sfincs raster-merge and river-bathymetry workflows

Shallow embedding of `src/hydromt_sfincs/workflows/merge.py` and
`src/hydromt_sfincs/workflows/bathymetry.py`.

Modelling conventions:
* A raster is a function `Fin n → Fin m → α` over a fixed pixel grid.
* Floating-point cell values are modelled as `ℚ`.  A cell holding NaN is
  modelled as `Option ℚ` with `none` standing for NaN (the numpy/pandas
  comparison and arithmetic semantics of NaN are reproduced explicitly:
  any comparison with NaN is false, any arithmetic with NaN is NaN).
* External collaborators (rasterio reprojection, hydromt interpolate_na and
  spread2d, the pyflwdir flow-network operations) are not part of the two
  source files; they enter the embedding as explicit function arguments, and
  where a claim needs a property of them that property is taken as a stated
  hypothesis, modelled from the specification.
-/

namespace HydromtSfincs

/-- A raster grid of `α`-valued cells on an `n × m` pixel grid. -/
abbrev Grid (n m : ℕ) (α : Type) := Fin n → Fin m → α

/-! ## Pixel neighbourhood machinery

`scipy.ndimage.binary_dilation` and `scipy.ndimage.binary_fill_holes` are
called in both source files with `structure=np.ones((3,3))`, i.e. with
8-connectivity.  We embed them over finite grids: dilation is the pointwise
existence of a set neighbour, and `binary_fill_holes` marks every cell that is
not background-connected to the image border (the background reachability set
is computed as the fixpoint of one-step 8-neighbour propagation, reached after
at most `n*m` iterations). -/

/-- Eight-neighbourhood (Chebyshev distance at most 1, self included, which is
what a 3×3 structuring element with centre gives). -/
def adj8 {n m : ℕ} (i i' : Fin n) (j j' : Fin m) : Prop :=
  ((i : ℤ) - (i' : ℤ)).natAbs ≤ 1 ∧ ((j : ℤ) - (j' : ℤ)).natAbs ≤ 1

instance {n m : ℕ} (i i' : Fin n) (j j' : Fin m) : Decidable (adj8 i i' j j') := by
  unfold adj8; infer_instance

/-- One step of `binary_dilation` with a full 3×3 structuring element. -/
def dilateOnce {n m : ℕ} (g : Grid n m Bool) : Grid n m Bool :=
  fun i j => decide (∃ i' j', adj8 i i' j j' ∧ g i' j' = true)

/-- Embedding of `ndimage.binary_dilation(g, structure=np.ones((3,3)), iterations=k)`. -/
def dilate {n m : ℕ} (g : Grid n m Bool) (k : ℕ) : Grid n m Bool :=
  dilateOnce^[k] g

/-- A cell on the border of the image. -/
def isBorder {n m : ℕ} (i : Fin n) (j : Fin m) : Prop :=
  i.val = 0 ∨ i.val = n - 1 ∨ j.val = 0 ∨ j.val = m - 1

instance {n m : ℕ} (i : Fin n) (j : Fin m) : Decidable (isBorder i j) := by
  unfold isBorder; infer_instance

/-- One step of background (complement of `valid`) reachability from the
border, through 8-connected background cells. -/
def reachStep {n m : ℕ} (valid : Grid n m Bool) (r : Grid n m Bool) : Grid n m Bool :=
  fun i j =>
    !valid i j &&
      (decide (isBorder i j) || decide (∃ i' j', adj8 i i' j j' ∧ r i' j' = true))

/-- Background cells reachable from the border (fixpoint of `reachStep`,
reached after at most `n*m` iterations on an `n × m` grid). -/
def bgReach {n m : ℕ} (valid : Grid n m Bool) : Grid n m Bool :=
  (reachStep valid)^[n * m] (fun _ _ => false)

/-- Embedding of `ndimage.binary_fill_holes(valid, structure=np.ones((3,3)))`: keep set
cells and additionally fill background cells that are not 8-connected to the
border. -/
def fillHoles {n m : ℕ} (valid : Grid n m Bool) : Grid n m Bool :=
  fun i j => valid i j || !bgReach valid i j

/-! ## NaN-aware scalar operations (numpy/pandas semantics) -/

/-- Comparison `a >= b` with NaN semantics: any comparison involving NaN is false. -/
def optGe : Option ℚ → Option ℚ → Bool
  | some a, some b => a ≥ b
  | _, _ => false

/-- Comparison `a <= b` with NaN semantics. -/
def optLe : Option ℚ → Option ℚ → Bool
  | some a, some b => a ≤ b
  | _, _ => false

/-- Mean `(a + b) / 2` with NaN semantics: NaN if either operand is NaN. -/
def optMean : Option ℚ → Option ℚ → Option ℚ
  | some a, some b => some ((a + b) / 2)
  | _, _ => none

/-! ## merge.py: data model -/

/-- The declared nodata value of a raster: missing (`None` in python), NaN,
or a finite number. -/
inductive NData where
  | null : NData
  | nan : NData
  | finite (q : ℚ) : NData
deriving DecidableEq

/-- Python exceptions surfaced by the merge functions. -/
inductive PyErr where
  | typeError : PyErr
  | valueError : PyErr
deriving DecidableEq

/-- The five merge rules of `merge_dataarrays`. -/
inductive MergeMethod where
  | first | last | mean | max | min
deriving DecidableEq

/-- An xarray DataArray as consumed by `merge_dataarrays`: raw cell data
(`none` = a NaN stored in the array) together with the declared nodata value
and a dtype tag. -/
structure MRaster (n m : ℕ) where
  data : Grid n m (Option ℚ)
  nodata : NData
  dtype : ℕ
deriving DecidableEq

/-- Embedding of `da.raster.mask_nodata()` for a finite declared nodata `q`: cells holding
the sentinel become NaN. -/
def maskNodataF {n m : ℕ} (g : Grid n m (Option ℚ)) (q : ℚ) : Grid n m (Option ℚ) :=
  fun i j => if g i j = some q then none else g i j

/-! ## merge.py: `_add_offset_mask_invalid` (lines 320-344)

The offset, when given as a DataArray, is first reprojected to the grid of
`da` and its nodata filled with 0; both that preprocessed raster offset and a
uniform float offset are represented here as a total grid `Grid n m ℚ`. -/

def _add_offset_mask_invalid {n m : ℕ} (da : Grid n m (Option ℚ))
    (offset : Option (Grid n m ℚ)) (min_valid max_valid : Option ℚ)
    (gdf_valid : Option (Grid n m Bool)) : Grid n m (Option ℚ) :=
  -- da = da.where(np.isnan(da), da + offset)
  let d1 : Grid n m (Option ℚ) :=
    match offset with
    | some off => fun i j =>
        match da i j with
        | none => none
        | some v => some (v + off i j)
    | none => da
  -- da = da.where(da >= min_valid, np.nan)
  let d2 : Grid n m (Option ℚ) :=
    match min_valid with
    | some mv => fun i j => if optGe (d1 i j) (some mv) then d1 i j else none
    | none => d1
  -- da = da.where(da <= max_valid, np.nan)
  let d3 : Grid n m (Option ℚ) :=
    match max_valid with
    | some mv => fun i j => if optLe (d2 i j) (some mv) then d2 i j else none
    | none => d2
  -- da = da.where(da.raster.geometry_mask(gdf_valid), np.nan)
  match gdf_valid with
  | some gm => fun i j => if gm i j then d3 i j else none
  | none => d3

/-! ## merge.py: `merge_dataarrays` (lines 148-256)

External collaborator arguments:
* `reproj` is the outcome of
  `da2.raster.reproject_like(da1, method).raster.mask_nodata().load()`:
  `Except.ok` carries the reprojected NaN-masked grid; `Except.error` models
  the exception raised when the source has no overlap with the destination
  grid.  The source catches that exception with a bare `except:` that prints
  "No data for this tile" and then continues with the *unmodified* `da2`
  (the original, un-reprojected data), which the embedding reproduces.
* `interpVals` is the value field produced by
  `da_out.raster.interpolate_na(method=interp_method)` on the buffer band.

The `da1.dtype` tag is carried through `astype(dtype)` unchanged. -/

def merge_dataarrays {n m : ℕ} (da1 : MRaster n m) (da2 : Grid n m (Option ℚ))
    (reproj : Except Unit (Grid n m (Option ℚ)))
    (offset : Option (Grid n m ℚ)) (min_valid max_valid : Option ℚ)
    (gdf_valid : Option (Grid n m Bool)) (buffer_cells : ℕ)
    (merge_method : MergeMethod) (interpVals : Grid n m (Option ℚ)) :
    Except PyErr (MRaster n m) :=
  match da1.nodata with
  | NData.null => Except.error PyErr.typeError  -- np.isnan(None) raises TypeError
  | nd =>
    -- if not np.isnan(nodata): da1 = da1.raster.mask_nodata()
    let g1 : Grid n m (Option ℚ) :=
      match nd with
      | NData.finite q => maskNodataF da1.data q
      | _ => da1.data
    -- try: da2 = reproject_like(...).mask_nodata()  except: print(...)
    let g2r : Grid n m (Option ℚ) :=
      match reproj with
      | Except.ok g => g
      | Except.error _ => da2
    let g2 := _add_offset_mask_invalid g2r offset min_valid max_valid gdf_valid
    -- merge based merge_method (mask selects da1 cells)
    let mask : Grid n m Bool :=
      match merge_method with
      | MergeMethod.first => fun i j => (g1 i j).isSome   -- ~np.isnan(da1)
      | MergeMethod.last  => fun i j => (g2 i j).isNone   -- np.isnan(da2)
      | MergeMethod.mean  => fun i j => (g1 i j).isNone   -- np.isnan(da1)
      | MergeMethod.max   => fun i j => optGe (g1 i j) (g2 i j)  -- da1 >= da2
      | MergeMethod.min   => fun i j => optLe (g1 i j) (g2 i j)  -- da1 <= da2
    let g2m : Grid n m (Option ℚ) :=
      match merge_method with
      | MergeMethod.mean => fun i j => optMean (g1 i j) (g2 i j)  -- (da1+da2)/2
      | _ => g2
    let dout : Grid n m (Option ℚ) := fun i j => if mask i j then g1 i j else g2m i j
    -- buffer: dilate mask, reset band to NaN, refill from interpolate_na
    let dout : Grid n m (Option ℚ) :=
      if buffer_cells > 0 then
        let mdil := dilate mask buffer_cells
        fun i j => if xor (mask i j) (mdil i j) then interpVals i j else dout i j
      else dout
    -- da_out = da_out.fillna(nodata).astype(dtype); set_nodata(nodata)
    let fdata : Grid n m (Option ℚ) :=
      match nd with
      | NData.finite q => fun i j => some ((dout i j).getD q)
      | _ => dout  -- fillna(nan) leaves NaN in place
    Except.ok ⟨fdata, nd, da1.dtype⟩

/-! ## merge.py: resampling-method selection in `merge_multi_dataarrays`
(lines 62-94 and 115-130) -/

/-- Reprojection methods relevant to the selection logic. -/
inductive RMethod where
  | bilinear | average | nearest | cubic
deriving DecidableEq

/-- Cell size in meters: geographic resolutions are multiplied by a fixed
111111 m/degree (lines 67-71, 119-123). -/
def dxMeters (res : ℚ) (isGeographic : Bool) : ℚ :=
  if isGeographic then |res| * 111111 else |res|

/-- Method selection for the first source (lines 63, 77-88): the
resolution-based choice compares the first source's cell size `dx1` with the
destination grid's cell size `dxLike`, and runs only when no method is
supplied and a destination grid `da_like` is given; in every other case,
including an explicitly supplied method, `"bilinear"` is used. -/
def firstSourceMethod (explicitM : Option RMethod) (hasDaLike : Bool)
    (dx1 dxLike : ℚ) : RMethod :=
  if explicitM = none ∧ hasDaLike then
    if dx1 ≥ dxLike then RMethod.bilinear else RMethod.average
  else RMethod.bilinear

/-- Method selection for every subsequent source in the loop (lines 116-129):
when no method is supplied the source's cell size `dx2` is compared with
`dx1`, the cell size of the *first source before reprojection* (computed once
at lines 67-71 and never updated); an explicitly supplied method is replaced
by `"bilinear"`. -/
def loopSourceMethod (explicitM : Option RMethod) (dx2 dx1 : ℚ) : RMethod :=
  match explicitM with
  | none => if dx2 ≥ dx1 then RMethod.bilinear else RMethod.average
  | some _ => RMethod.bilinear

/-- The selection rule as worded by the specification (§4.2 and claim C8):
compare the source cell size against the cell size of the *destination grid*.
Stated only for comparison with the source-derived definitions above. -/
def specSourceMethod (dxSource dxDest : ℚ) : RMethod :=
  if dxSource ≥ dxDest then RMethod.bilinear else RMethod.average

/-! ## bathymetry.py: `merge_topobathy` (lines 41-144)

`merge_topobathy` works on rasters with a *finite* nodata sentinel.  The
incoming raster argument `da2` below stands for the result of
`da2.raster.reproject_like(da1, method).raster.mask_nodata().fillna(nodata)`
(line 96-100): a total grid on `da1`'s pixel grid carrying `da1`'s sentinel.
`interpVals` models the values produced by
`da_out.raster.interpolate_na(method="linear")` at nodata cells (line 142),
an external hydromt collaborator. -/

/-- Merge methods accepted by `merge_topobathy` ('mean' is not one of them). -/
inductive TBMethod where
  | first | last | min | max
deriving DecidableEq

/-- Offset application (line 102-109): `da2.where(da2 == nodata, da2 + da_offset)`
keeps the sentinel where present and offsets every other cell.  A DataArray
offset is preprocessed (reproject + fillna(0)) into a total grid, a float
offset into a constant grid. -/
def tbOffset {n m : ℕ} (da2 : Grid n m ℚ) (nodata : ℚ)
    (da_offset : Option (Grid n m ℚ)) : Grid n m ℚ :=
  match da_offset with
  | some off => fun i j => if da2 i j = nodata then da2 i j else da2 i j + off i j
  | none => da2

/-- The keep-`da1` mask of `merge_topobathy` (lines 111-120). -/
def tbMask {n m : ℕ} (mm : TBMethod) (da1 da2 : Grid n m ℚ) (nodata : ℚ) :
    Grid n m Bool :=
  match mm with
  | TBMethod.first => fun i j => da1 i j ≠ nodata
  | TBMethod.last  => fun i j => da2 i j = nodata
  | TBMethod.min   => fun i j => da1 i j < da2 i j
  | TBMethod.max   => fun i j => da1 i j > da2 i j

/-- Combination `da_out = da1.where(mask, da2)` (line 121). -/
def tbCombined {n m : ℕ} (mm : TBMethod) (da1 da2 : Grid n m ℚ) (nodata : ℚ) :
    Grid n m ℚ :=
  fun i j => if tbMask mm da1 da2 nodata i j then da1 i j else da2 i j

/-- Hole detection (lines 124-127): `na_mask = da_out != nodata`, filled with
`binary_fill_holes` when any cell is nodata. -/
def tbNaMask {n m : ℕ} (dout : Grid n m ℚ) (nodata : ℚ) : Grid n m Bool :=
  let valid : Grid n m Bool := fun i j => dout i j ≠ nodata
  if ∃ i j, valid i j = false then fillHoles valid else valid

/-- Outlier caps (lines 129-132): cells taken from `da2` whose (offset-applied)
`da2` value falls outside `[elv_min, elv_max]` are reset to nodata. -/
def tbCapped {n m : ℕ} (dout : Grid n m ℚ) (mask : Grid n m Bool)
    (da2 : Grid n m ℚ) (nodata : ℚ) (elv_min elv_max : Option ℚ) : Grid n m ℚ :=
  let d1 : Grid n m ℚ :=
    match elv_min with
    | some emin => fun i j => if mask i j = false ∧ da2 i j < emin then nodata else dout i j
    | none => dout
  match elv_max with
  | some emax => fun i j => if mask i j = false ∧ da2 i j > emax then nodata else d1 i j
  | none => d1

/-- Buffer band (lines 134-137): the ring added by dilating `mask` by
`merge_buffer` iterations is reset to nodata. -/
def tbBuffered {n m : ℕ} (dout : Grid n m ℚ) (mask : Grid n m Bool)
    (merge_buffer : ℕ) (nodata : ℚ) : Grid n m ℚ :=
  if merge_buffer > 0 then
    let mdil := dilate mask merge_buffer
    fun i j => if xor (mask i j) (mdil i j) then nodata else dout i j
  else dout

/-- Final interpolation pass (lines 139-143): when any nodata cell remains
inside `na_mask`, all nodata cells are filled by `interpolate_na` and the
area outside `na_mask` is reset to nodata. -/
def tbFinal {n m : ℕ} (dout : Grid n m ℚ) (na_mask : Grid n m Bool)
    (interpVals : Grid n m ℚ) (nodata : ℚ) : Grid n m ℚ :=
  if ∃ i j, na_mask i j = true ∧ dout i j = nodata then
    fun i j =>
      if na_mask i j then
        if dout i j = nodata then interpVals i j else dout i j
      else nodata
  else dout

def merge_topobathy {n m : ℕ} (da1 da2 : Grid n m ℚ) (nodata : ℚ)
    (da_offset : Option (Grid n m ℚ)) (merge_buffer : ℕ) (merge_method : TBMethod)
    (elv_min elv_max : Option ℚ) (interpVals : Grid n m ℚ) : Grid n m ℚ :=
  let da2o := tbOffset da2 nodata da_offset
  let mask := tbMask merge_method da1 da2o nodata
  let dout := tbCombined merge_method da1 da2o nodata
  let na_mask := tbNaMask dout nodata
  let dcap := tbCapped dout mask da2o nodata elv_min elv_max
  let dbuf := tbBuffered dcap mask merge_buffer nodata
  tbFinal dbuf na_mask interpVals nodata

/-- Wrapper around `merge_topobathy` including the nodata precondition (lines 92-94):
`if nodata is None or np.isnan(nodata): raise ValueError(...)`. -/
def merge_topobathy_checked {n m : ℕ} (ndspec : NData) (da1 da2 : Grid n m ℚ)
    (da_offset : Option (Grid n m ℚ)) (merge_buffer : ℕ) (merge_method : TBMethod)
    (elv_min elv_max : Option ℚ) (interpVals : Grid n m ℚ) :
    Except PyErr (Grid n m ℚ) :=
  match ndspec with
  | NData.finite q =>
      Except.ok (merge_topobathy da1 da2 q da_offset merge_buffer merge_method
        elv_min elv_max interpVals)
  | _ => Except.error PyErr.valueError

/-! ## bathymetry.py: `get_river_zb` (lines 211-380)

The per-segment pipeline from line 332 onward, over a table of `k` river
segments.  Everything computed by external collaborators enters as an
argument:

* `rivbank_dz` is the output of `get_rivbank_dz` (line 337), a raster/HAND
  computation delegated to scipy/hydromt;
* `movingAvg` is `flw.moving_average(·, n=smooth_n)` and `demAdjust` is
  `flw.dem_adjust` on segment series (pyflwdir);
* `dsIdx` is the downstream-segment map underlying `flw.downstream(data)`,
  which returns a segment's own value when it has no downstream neighbour
  (outlets map to themselves);
* `rivdph0` is `rivers.river_depth(...)` (line 351, hydromt hydraulics);
* `estuary` is `flw.classify_estuaries(...) == 1` and `fillnodataDown` is
  `flw.fillnodata(·, -9999, "down")` (lines 359-366, pyflwdir).

The river-width refinement (lines 343-348) only feeds those external
collaborators and is therefore absorbed into the `rivdph0` and `estuary`
arguments. -/

/-- A pandas float value: NaN, ±infinity, or a finite number. -/
inductive PVal where
  | nan : PVal
  | posinf : PVal
  | neginf : PVal
  | val (q : ℚ) : PVal
deriving DecidableEq

/-- Pandas division of two finite floats: `0/0` is NaN, `±d/0` is a signed
infinity, otherwise exact division. -/
def pdiv (dz dx : ℚ) : PVal :=
  if dx = 0 then
    if dz = 0 then PVal.nan
    else if dz > 0 then PVal.posinf
    else PVal.neginf
  else PVal.val (dz / dx)

/-- Pandas `Series.fillna(0)`: replaces NaN, leaves infinities in place. -/
def fillna0 : PVal → PVal
  | PVal.nan => PVal.val 0
  | v => v

/-- Output columns of `get_river_zb` relevant to the claims. -/
structure RiverZbOut (k : ℕ) where
  zs : Fin k → ℚ
  zb : Fin k → ℚ
  rivdph : Fin k → ℚ
  rivslp : Fin k → PVal

def get_river_zb {k : ℕ} (elevtn rivdst rivbank_dz : Fin k → ℚ)
    (movingAvg demAdjust : (Fin k → ℚ) → Fin k → ℚ)
    (dsIdx : Fin k → Fin k) (rivdph0 : Fin k → ℚ)
    (estuary : Fin k → Bool) (fillnodataDown : (Fin k → ℚ) → Fin k → ℚ)
    (adjust_estuary adjust_dem : Bool) : RiverZbOut k :=
  -- zs0 = elevtn + rivbank_dz; smooth + monotonic adjust (lines 338-339)
  let zs0 := demAdjust (movingAvg (fun i => elevtn i + rivbank_dz i))
  -- zs = np.maximum(elevtn, zs0) (line 340)
  let zs : Fin k → ℚ := fun i => max (elevtn i) (zs0 i)
  -- rivdph = moving_average(rivdph0, n=smooth_n) (line 354)
  let rivdph1 := movingAvg rivdph0
  -- estuary handling (lines 356-366)
  let rivdph2 : Fin k → ℚ :=
    if adjust_estuary then
      fillnodataDown (fun i => if estuary i then -9999 else rivdph1 i)
    else rivdph1
  -- zb = zs - rivdph; optional dem_adjust; clamp to elevtn (lines 369-372)
  let zb0 : Fin k → ℚ := fun i => zs i - rivdph2 i
  let zb1 := if adjust_dem then demAdjust zb0 else zb0
  let zb : Fin k → ℚ := fun i => min (zb1 i) (elevtn i)
  -- rivdph = zs - zb (line 373)
  let rivdphF : Fin k → ℚ := fun i => zs i - zb i
  -- rivslp = ((zb - downstream zb) / (rivdst - downstream rivdst)).fillna(0)
  -- (lines 376-378)
  let rivslp : Fin k → PVal := fun i =>
    fillna0 (pdiv (zb i - zb (dsIdx i)) (rivdst i - rivdst (dsIdx i)))
  ⟨zs, zb, rivdphF, rivslp⟩

/-! ## bathymetry.py: `burn_river_zb` (lines 383-444)

Pointwise over an arbitrary cell index type `ι`.  External collaborators:

* `zbSpread` is the grid produced by lines 415-427 up to
  `spread2d(zb, da_msk)["elevtn"]`: the rasterized segment bed levels
  (optionally with the along-segment slope interpolation of lines 417-423)
  spread to every river-mask cell — rasterization and `spread2d` are hydromt
  collaborators, so the spread result enters as an input grid;
* `demAdjust` and `demDigD4` are `flwdir.dem_adjust` and
  `flwdir.dem_dig_d4(·, da_msk, nodata)` (pyflwdir);
* `hasFlwdir` records whether a flow-direction object was passed. -/

/-- Lines 426-429 of `burn_river_zb`:
`da_elv1 = spread2d(zb, da_msk)["elevtn"].where(da_msk, da_elv)`,
`da_elv1 = np.minimum(da_elv, da_elv1)`,
`da_elv1 = da_elv1.where(da_elv != nodata, nodata)`. -/
def burnStep1 {ι : Type} (elv zbSpread : ι → ℚ) (msk : ι → Bool) (nodata : ℚ) :
    ι → ℚ :=
  let e1 : ι → ℚ := fun c => if msk c then zbSpread c else elv c
  let e2 : ι → ℚ := fun c => min (elv c) (e1 c)
  fun c => if elv c ≠ nodata then e2 c else nodata

def burn_river_zb {ι : Type} (elv zbSpread : ι → ℚ) (msk : ι → Bool) (nodata : ℚ)
    (adjust_dem hasFlwdir : Bool) (demAdjust demDigD4 : (ι → ℚ) → ι → ℚ) : ι → ℚ :=
  -- optional D4-connectivity correction (lines 431-439), applied on top of
  -- the grid of lines 426-429 and re-masked by `.where(da_msk, da_elv)`
  if adjust_dem ∧ hasFlwdir then
    let e4 := demDigD4 (demAdjust (burnStep1 elv zbSpread msk nodata))
    fun c => if msk c then e4 c else elv c
  else burnStep1 elv zbSpread msk nodata

/-! ## Helper lemmas -/

/-- Cells set in the input stay set by `fillHoles`. -/
theorem fillHoles_superset {n m : ℕ} (valid : Grid n m Bool)
    (i : Fin n) (j : Fin m) (h : valid i j = true) : fillHoles valid i j = true := by
  unfold fillHoles
  simp [h]

/-- A cell rejected by `fillHoles` was not valid to begin with. -/
theorem fillHoles_false_of_invalid {n m : ℕ} (valid : Grid n m Bool)
    (i : Fin n) (j : Fin m) (h : fillHoles valid i j = false) : valid i j = false := by
  by_contra hv
  rw [Bool.not_eq_false] at hv
  rw [fillHoles_superset valid i j hv] at h
  exact Bool.true_eq_false.mp h

/-- The pointwise part of `burn_river_zb` (lines 426-429) never raises a cell. -/
theorem burnStep1_le {ι : Type} (elv zbSpread : ι → ℚ) (msk : ι → Bool)
    (nodata : ℚ) (c : ι) : burnStep1 elv zbSpread msk nodata c ≤ elv c := by
  unfold burnStep1
  by_cases h : elv c = nodata <;> simp [h, min_le_left]

/-- The pointwise part of `burn_river_zb` leaves unmasked cells unchanged. -/
theorem burnStep1_unmasked {ι : Type} (elv zbSpread : ι → ℚ) (msk : ι → Bool)
    (nodata : ℚ) (c : ι) (hm : msk c = false) :
    burnStep1 elv zbSpread msk nodata c = elv c := by
  unfold burnStep1
  by_cases h : elv c = nodata <;> simp [h, hm]

/-- When the nodata sentinel lies strictly below every valid elevation and
every spread bed level, the pointwise part of `burn_river_zb` is nodata
exactly at the cells where the input DEM is nodata. -/
theorem burnStep1_nodata_iff {ι : Type} (elv zbSpread : ι → ℚ) (msk : ι → Bool)
    (nodata : ℚ) (hElv : ∀ c, elv c ≠ nodata → nodata < elv c)
    (hSpread : ∀ c, nodata < zbSpread c) (c : ι) :
    burnStep1 elv zbSpread msk nodata c = nodata ↔ elv c = nodata := by
  unfold burnStep1
  by_cases h : elv c = nodata
  · simp [h]
  · have hlt : nodata < min (elv c) (if msk c then zbSpread c else elv c) := by
      refine lt_min (hElv c h) ?_
      by_cases hm : msk c <;> simp [hm, hSpread c, hElv c h]
    simp only [h, ne_eq, not_false_eq_true, if_true]
    constructor
    · intro hmin
      rw [hmin] at hlt
      exact absurd hlt (lt_irrefl _)
    · intro he
      exact he.elim

/-! ## Claim C1 -/

/-- C1: for every input on which `get_river_zb` returns a segment table, every
segment of the returned table satisfies `zb ≤ elevtn` and `zs ≥ elevtn`,
whatever the external flow-network collaborators compute: `zs` is clamped by
`np.maximum(elevtn, zs0)` (line 340) and `zb` by
`np.minimum(zb, elevtn)` (line 372). -/
theorem c1_bed_below_surface {k : ℕ} (elevtn rivdst rivbank_dz : Fin k → ℚ)
    (movingAvg demAdjust : (Fin k → ℚ) → Fin k → ℚ)
    (dsIdx : Fin k → Fin k) (rivdph0 : Fin k → ℚ)
    (estuary : Fin k → Bool) (fillnodataDown : (Fin k → ℚ) → Fin k → ℚ)
    (adjust_estuary adjust_dem : Bool) (i : Fin k) :
    (get_river_zb elevtn rivdst rivbank_dz movingAvg demAdjust dsIdx rivdph0
      estuary fillnodataDown adjust_estuary adjust_dem).zb i ≤ elevtn i ∧
    elevtn i ≤ (get_river_zb elevtn rivdst rivbank_dz movingAvg demAdjust dsIdx
      rivdph0 estuary fillnodataDown adjust_estuary adjust_dem).zs i := by
  unfold get_river_zb
  exact ⟨min_le_right _ _, le_max_left _ _⟩

/-! ## Claim C2 -/

/-- C2: for every call to `burn_river_zb`, every output cell inside the river
mask is at most the input elevation, every cell outside the mask equals the
input exactly, and a cell is nodata in the output exactly when it is nodata
in the input — with and without the `adjust_dem` flow-network adjustment.
The pyflwdir collaborators `dem_adjust` and `dem_dig_d4` are not part of this
repository; they are modelled from the spec (§4.5, §7) as grid operations
that never raise a cell's elevation and preserve the nodata footprint; the
nodata sentinel is assumed to lie strictly below the valid elevation domain
(spec §3: the sentinel "must be a value outside the valid domain"). -/
theorem c2_burn_frame_effect {ι : Type} (elv zbSpread : ι → ℚ) (msk : ι → Bool)
    (nodata : ℚ) (adjust_dem hasFlwdir : Bool)
    (demAdjust demDigD4 : (ι → ℚ) → ι → ℚ)
    (hAdjLe : ∀ g c, demAdjust g c ≤ g c)
    (hAdjNd : ∀ g c, g c = nodata → demAdjust g c = nodata)
    (hAdjVal : ∀ g c, g c ≠ nodata → demAdjust g c ≠ nodata)
    (hDigLe : ∀ g c, demDigD4 g c ≤ g c)
    (hDigNd : ∀ g c, g c = nodata → demDigD4 g c = nodata)
    (hDigVal : ∀ g c, g c ≠ nodata → demDigD4 g c ≠ nodata)
    (hElv : ∀ c, elv c ≠ nodata → nodata < elv c)
    (hSpread : ∀ c, nodata < zbSpread c) (c : ι) :
    (msk c = true →
      burn_river_zb elv zbSpread msk nodata adjust_dem hasFlwdir demAdjust
        demDigD4 c ≤ elv c) ∧
    (msk c = false →
      burn_river_zb elv zbSpread msk nodata adjust_dem hasFlwdir demAdjust
        demDigD4 c = elv c) ∧
    (burn_river_zb elv zbSpread msk nodata adjust_dem hasFlwdir demAdjust
        demDigD4 c = nodata ↔ elv c = nodata) := by
  have hb1le := burnStep1_le elv zbSpread msk nodata
  have hb1nd := burnStep1_nodata_iff elv zbSpread msk nodata hElv hSpread
  unfold burn_river_zb
  by_cases hb : (adjust_dem = true ∧ hasFlwdir = true)
  · simp only [hb, and_self, if_true]
    by_cases hm : msk c
    · have hle : demDigD4 (demAdjust (burnStep1 elv zbSpread msk nodata)) c ≤
          burnStep1 elv zbSpread msk nodata c :=
        le_trans (hDigLe _ c) (hAdjLe _ c)
      have hndiff : demDigD4 (demAdjust (burnStep1 elv zbSpread msk nodata)) c =
          nodata ↔ elv c = nodata := by
        constructor
        · intro hdig
          by_contra hval
          have h1 : burnStep1 elv zbSpread msk nodata c ≠ nodata :=
            fun hh => hval ((hb1nd c).mp hh)
          exact hDigVal _ c (hAdjVal _ c h1) hdig
        · intro hval
          exact hDigNd _ c (hAdjNd _ c ((hb1nd c).mpr hval))
      refine ⟨fun _ => ?_, fun hmf => absurd hm (by simp [hmf]), ?_⟩
      · simpa [hm] using le_trans hle (hb1le c)
      · simpa [hm] using hndiff
    · have hm' : msk c = false := by simpa using hm
      refine ⟨fun hmt => absurd hmt hm, fun _ => by simp [hm'], ?_⟩
      simp [hm']
  · simp only [hb, if_false]
    exact ⟨fun _ => hb1le c, fun hmf => burnStep1_unmasked elv zbSpread msk nodata c hmf,
      hb1nd c⟩

/-- C2 witness: a one-cell grid inside the river mask, elevation 5, spread
bed level 3, sentinel −9999, with `adjust_dem` on and identity network
operations: the burned cell is at most 5 and is not nodata. -/
theorem c2_burn_frame_effect_witness :
    burn_river_zb (ι := Fin 1) (fun _ => 5) (fun _ => 3) (fun _ => true) (-9999)
      true true id id 0 ≤ 5 ∧
    burn_river_zb (ι := Fin 1) (fun _ => 5) (fun _ => 3) (fun _ => true) (-9999)
      true true id id 0 ≠ -9999 :=
  have h := c2_burn_frame_effect (ι := Fin 1) (fun _ => 5) (fun _ => 3)
    (fun _ => true) (-9999) true true id id
    (fun _ c => le_refl _) (fun _ c hh => hh) (fun _ c hh => hh)
    (fun _ c => le_refl _) (fun _ c hh => hh) (fun _ c hh => hh)
    (fun _ _ => by norm_num) (fun _ => by norm_num) 0
  ⟨h.1 rfl, fun hx => absurd (h.2.2.mp hx) (by norm_num)⟩

/-! ## Claim C3 -/

/-- C3 counterexample: a two-segment table in which segment 0 drains to
segment 1 at the same along-network distance (`rivdst` delta 0) but with a
different bed level (bank height 0, depth 0, all network operations the
identity, so `zb = elevtn` with `elevtn = (3, 1)`).  The claim demands
`rivslp = 0` for that segment and "never NaN or infinity", but
`(dz / dx).fillna(0)` (line 378) only replaces the NaN arising from `0/0`:
with `dz = 2` and `dx = 0` the pandas division yields `+inf`, which
`fillna(0)` leaves in place. -/
theorem c3_counterexample :
    (get_river_zb (k := 2) (fun i => if i.val = 0 then 3 else 1) (fun _ => 5)
        (fun _ => 0) id id (fun _ => ⟨1, by norm_num⟩) (fun _ => 0)
        (fun _ => false) id false false).rivslp ⟨0, by norm_num⟩ = PVal.posinf ∧
    ((5 : ℚ) - 5 = 0) ∧ PVal.posinf ≠ PVal.val 0 := by
  refine ⟨?_, by norm_num, by decide⟩
  norm_num [get_river_zb, pdiv, fillna0]

/-- C3 as amended: in `get_river_zb` the final slope of a segment equals
`(zb - downstream zb) / (rivdst - downstream rivdst)` whenever the distance
delta to the downstream neighbour is nonzero; when the distance delta is zero
the slope is 0 only if the bed-level delta is also zero (the `0/0` NaN case,
e.g. at outlets, where `flw.downstream` returns the segment's own value);
when the distance delta is zero but the bed-level delta is nonzero, the
division yields a signed infinity which `fillna(0)` does not replace. -/
theorem c3_rivslp_amended {k : ℕ} (elevtn rivdst rivbank_dz : Fin k → ℚ)
    (movingAvg demAdjust : (Fin k → ℚ) → Fin k → ℚ)
    (dsIdx : Fin k → Fin k) (rivdph0 : Fin k → ℚ)
    (estuary : Fin k → Bool) (fillnodataDown : (Fin k → ℚ) → Fin k → ℚ)
    (adjust_estuary adjust_dem : Bool) (i : Fin k) :
    ((get_river_zb elevtn rivdst rivbank_dz movingAvg demAdjust dsIdx rivdph0
        estuary fillnodataDown adjust_estuary adjust_dem).rivslp i =
      fillna0 (pdiv
        ((get_river_zb elevtn rivdst rivbank_dz movingAvg demAdjust dsIdx rivdph0
          estuary fillnodataDown adjust_estuary adjust_dem).zb i -
         (get_river_zb elevtn rivdst rivbank_dz movingAvg demAdjust dsIdx rivdph0
          estuary fillnodataDown adjust_estuary adjust_dem).zb (dsIdx i))
        (rivdst i - rivdst (dsIdx i)))) ∧
    (∀ dz dx : ℚ,
      (dx ≠ 0 → fillna0 (pdiv dz dx) = PVal.val (dz / dx)) ∧
      (dx = 0 → dz = 0 → fillna0 (pdiv dz dx) = PVal.val 0) ∧
      (dx = 0 → dz ≠ 0 →
        fillna0 (pdiv dz dx) = PVal.posinf ∨ fillna0 (pdiv dz dx) = PVal.neginf)) := by
  constructor
  · rfl
  · intro dz dx
    refine ⟨fun hdx => ?_, fun hdx hdz => ?_, fun hdx hdz => ?_⟩
    · simp [pdiv, hdx, fillna0]
    · simp [pdiv, hdx, hdz, fillna0]
    · rcases lt_trichotomy dz 0 with h | h | h
      · right; simp [pdiv, hdx, fillna0, h, not_lt.mpr h.le, h.ne]
      · exact absurd h hdz
      · left; simp [pdiv, hdx, fillna0, h, h.ne']

/-- C3 amended witness: a single outlet segment (downstream of itself), where
both deltas are 0 and the slope is the fallback 0. -/
theorem c3_rivslp_amended_witness :
    fillna0 (pdiv ((0 : ℚ) - 0) ((7 : ℚ) - 7)) = PVal.val 0 :=
  ((c3_rivslp_amended (k := 1) (fun _ => 4) (fun _ => 7) (fun _ => 0) id id
    (fun i => i) (fun _ => 0) (fun _ => false) id false false ⟨0, by norm_num⟩).2
    (0 - 0) (7 - 7)).2.1 (by norm_num) (by norm_num)

/-! ## Claim C4 -/

/-- A cell of the incoming raster whose offset-applied value lies below
`min_valid` is turned into NaN by `_add_offset_mask_invalid` (line 339),
whatever the `max_valid` and polygon filters do afterwards. -/
theorem add_offset_mask_below_min {n m : ℕ} (g2 : Grid n m (Option ℚ))
    (offset : Option (Grid n m ℚ)) (mv : ℚ) (max_valid : Option ℚ)
    (gdf_valid : Option (Grid n m Bool)) (i : Fin n) (j : Fin m) (w : ℚ)
    (hg2 : g2 i j = some w)
    (hlow : w + offset.elim 0 (fun off => off i j) < mv) :
    _add_offset_mask_invalid g2 offset (some mv) max_valid gdf_valid i j = none := by
  unfold _add_offset_mask_invalid
  rcases offset with _ | off
  · have hn : ¬((w : ℚ) ≥ mv) := by
      rw [ge_iff_le, not_le]
      simpa using hlow
    cases max_valid <;> cases gdf_valid <;> simp [hg2, optGe, optLe, hn]
  · have hn : ¬(w + off i j ≥ mv) := by
      rw [ge_iff_le, not_le]
      simpa using hlow
    cases max_valid <;> cases gdf_valid <;> simp [hg2, optGe, optLe, hn]

/-- C4 counterexample: base 1×1 raster with value 3 and nodata −9999,
incoming value −5, `min_valid = 0`, merge rule `max`, no buffer.  The
incoming cell is correctly treated as no-data, but `mask = da1 >= da2`
(line 237) is false when `da2` is NaN, so `da_out = da1.where(mask, da2)`
takes the NaN and `fillna(nodata)` turns the cell into −9999: the base value
3 is *not* retained, contradicting the claim for rule `max`. -/
theorem c4_counterexample :
    (merge_dataarrays (n := 1) (m := 1)
        ⟨fun _ _ => some 3, NData.finite (-9999), 0⟩
        (fun _ _ => some (-5)) (Except.ok (fun _ _ => some (-5))) none (some 0)
        none none 0 MergeMethod.max (fun _ _ => none)).map (fun r => r.data 0 0) =
      Except.ok (some (-9999)) ∧ some (-9999 : ℚ) ≠ some 3 := by
  refine ⟨?_, by norm_num⟩
  rfl

/-- C4 as amended: with `min_valid` set and an incoming cell whose
offset-applied value is below it, that cell is treated as no-data, and for
merge rules `first` and `last` (with no smoothing buffer) the output at that
cell equals the base raster's value; under `mean` the cell is averaged with
NaN and under `max`/`min` the NaN comparison is false, so in those three
rules the incoming NaN is selected and the cell becomes no-data even where
the base is valid. -/
theorem c4_min_valid_amended {n m : ℕ} (da1 : MRaster n m) (q : ℚ)
    (da2 g2 : Grid n m (Option ℚ)) (offset : Option (Grid n m ℚ)) (mv : ℚ)
    (max_valid : Option ℚ) (gdf_valid : Option (Grid n m Bool))
    (merge_method : MergeMethod) (interpVals : Grid n m (Option ℚ))
    (i : Fin n) (j : Fin m) (b w : ℚ)
    (hnd : da1.nodata = NData.finite q)
    (hbase : da1.data i j = some b)
    (hg2 : g2 i j = some w)
    (hlow : w + offset.elim 0 (fun off => off i j) < mv)
    (hmm : merge_method = MergeMethod.first ∨ merge_method = MergeMethod.last) :
    (merge_dataarrays da1 da2 (Except.ok g2) offset (some mv) max_valid
        gdf_valid 0 merge_method interpVals).map (fun r => r.data i j) =
      Except.ok (some b) := by
  obtain ⟨d, nd0, dt⟩ := da1
  simp only [MRaster.nodata] at hnd
  simp only [MRaster.data] at hbase
  subst hnd
  have hfilt := add_offset_mask_below_min g2 offset mv max_valid gdf_valid i j w hg2 hlow
  rcases hmm with rfl | rfl
  · simp only [merge_dataarrays, Except.map, maskNodataF]
    by_cases hbq : b = q
    · subst hbq
      simp [hbase, hfilt]
    · simp [hbase, hfilt, hbq]
  · simp only [merge_dataarrays, Except.map, maskNodataF]
    by_cases hbq : b = q
    · subst hbq
      simp [hbase, hfilt]
    · simp [hbase, hfilt, hbq]

/-- C4 amended witness: same setup as the counterexample but with rule
`first`: the base value 3 is retained at the filtered cell. -/
theorem c4_min_valid_amended_witness :
    ((-5 : ℚ) + (none : Option (Grid 1 1 ℚ)).elim 0 (fun off => off 0 0) < 0) ∧
    (merge_dataarrays (n := 1) (m := 1)
        ⟨fun _ _ => some 3, NData.finite (-9999), 0⟩
        (fun _ _ => some (-5)) (Except.ok (fun _ _ => some (-5))) none (some 0)
        none none 0 MergeMethod.first (fun _ _ => none)).map (fun r => r.data 0 0) =
      Except.ok (some 3) :=
  ⟨by norm_num, c4_min_valid_amended
    ⟨fun _ _ => some 3, NData.finite (-9999), 0⟩ (-9999)
    (fun _ _ => some (-5)) (fun _ _ => some (-5)) none 0 none none
    MergeMethod.first (fun _ _ => none) 0 0 3 (-5) rfl rfl rfl (by norm_num)
    (Or.inl rfl)⟩

/-! ## Claim C5 -/

/-- C5 counterexample: a base raster that declares NaN as its no-data value.
The claim says the pairwise merge fails with a configuration error, but
`merge_dataarrays` performs no such check: `if not np.isnan(nodata)` (line
208) simply skips the masking step for a NaN nodata and the merge proceeds,
returning a merged raster. -/
theorem c5_counterexample :
    (merge_dataarrays (n := 1) (m := 1) ⟨fun _ _ => some 1, NData.nan, 0⟩
        (fun _ _ => some 2) (Except.ok (fun _ _ => some 2)) none none none none
        0 MergeMethod.first (fun _ _ => none)).isOk = true := by
  rfl

/-- C5 as amended: `merge_topobathy` raises `ValueError` whenever the base
no-data value is missing (`None`) or NaN (lines 92-94 of bathymetry.py);
`merge_dataarrays` has no such precondition: with a NaN no-data value it
proceeds and returns a merged raster, and with a missing no-data value it
fails only incidentally, with the `TypeError` that `np.isnan(None)` raises,
not with a deliberate configuration error. -/
theorem c5_nodata_check_amended {n m : ℕ} (ndspec : NData) (da1q da2q : Grid n m ℚ)
    (offq : Option (Grid n m ℚ)) (buf : ℕ) (tmm : TBMethod)
    (emin emax : Option ℚ) (ivq : Grid n m ℚ)
    (da1 : MRaster n m) (da2 : Grid n m (Option ℚ))
    (reproj : Except Unit (Grid n m (Option ℚ))) (offset : Option (Grid n m ℚ))
    (min_valid max_valid : Option ℚ) (gdf_valid : Option (Grid n m Bool))
    (buffer_cells : ℕ) (merge_method : MergeMethod)
    (interpVals : Grid n m (Option ℚ)) :
    ((ndspec = NData.null ∨ ndspec = NData.nan) →
      merge_topobathy_checked ndspec da1q da2q offq buf tmm emin emax ivq =
        Except.error PyErr.valueError) ∧
    (da1.nodata = NData.nan →
      (merge_dataarrays da1 da2 reproj offset min_valid max_valid gdf_valid
        buffer_cells merge_method interpVals).isOk = true) ∧
    (da1.nodata = NData.null →
      merge_dataarrays da1 da2 reproj offset min_valid max_valid gdf_valid
        buffer_cells merge_method interpVals = Except.error PyErr.typeError) := by
  obtain ⟨d, nd0, dt⟩ := da1
  refine ⟨fun hns => ?_, fun hnan => ?_, fun hnull => ?_⟩
  · rcases hns with rfl | rfl <;> rfl
  · simp only [MRaster.nodata] at hnan
    subst hnan
    rfl
  · simp only [MRaster.nodata] at hnull
    subst hnull
    rfl

/-- C5 amended witness: concrete 1×1 instances of all three behaviours. -/
theorem c5_nodata_check_amended_witness :
    merge_topobathy_checked (n := 1) (m := 1) NData.nan (fun _ _ => 1)
      (fun _ _ => 2) none 0 TBMethod.first none none (fun _ _ => 0) =
      Except.error PyErr.valueError ∧
    (merge_dataarrays (n := 1) (m := 1) ⟨fun _ _ => some 1, NData.nan, 0⟩
        (fun _ _ => some 2) (Except.ok (fun _ _ => some 2)) none none none none
        0 MergeMethod.last (fun _ _ => none)).isOk = true ∧
    merge_dataarrays (n := 1) (m := 1) ⟨fun _ _ => some 1, NData.null, 0⟩
        (fun _ _ => some 2) (Except.ok (fun _ _ => some 2)) none none none none
        0 MergeMethod.last (fun _ _ => none) = Except.error PyErr.typeError := by
  have h := c5_nodata_check_amended (n := 1) (m := 1) NData.nan (fun _ _ => 1)
    (fun _ _ => 2) none 0 TBMethod.first none none (fun _ _ => 0)
    ⟨fun _ _ => some 1, NData.nan, 0⟩ (fun _ _ => some 2)
    (Except.ok (fun _ _ => some 2)) none none none none 0 MergeMethod.last
    (fun _ _ => none)
  have h' := c5_nodata_check_amended (n := 1) (m := 1) NData.nan (fun _ _ => 1)
    (fun _ _ => 2) none 0 TBMethod.first none none (fun _ _ => 0)
    ⟨fun _ _ => some 1, NData.null, 0⟩ (fun _ _ => some 2)
    (Except.ok (fun _ _ => some 2)) none none none none 0 MergeMethod.last
    (fun _ _ => none)
  exact ⟨h.1 (Or.inr rfl), h.2.1 rfl, h'.2.2 rfl⟩

/-! ## Claim C6 -/

/-- Resetting out-of-range cells to nodata (lines 129-132) never revives a
cell that was already nodata after combination. -/
theorem tbCapped_preserves_nodata {n m : ℕ} (dout : Grid n m ℚ)
    (mask : Grid n m Bool) (da2 : Grid n m ℚ) (nodata : ℚ)
    (elv_min elv_max : Option ℚ) (i : Fin n) (j : Fin m)
    (h : dout i j = nodata) :
    tbCapped dout mask da2 nodata elv_min elv_max i j = nodata := by
  unfold tbCapped
  cases elv_min <;> cases elv_max <;> simp only [] <;>
    first
    | exact h
    | (split_ifs <;> simp [h])

/-- Resetting the buffer band to nodata (lines 134-137) never revives a
nodata cell. -/
theorem tbBuffered_preserves_nodata {n m : ℕ} (dout : Grid n m ℚ)
    (mask : Grid n m Bool) (merge_buffer : ℕ) (nodata : ℚ) (i : Fin n)
    (j : Fin m) (h : dout i j = nodata) :
    tbBuffered dout mask merge_buffer nodata i j = nodata := by
  unfold tbBuffered
  split_ifs <;> simp [h]

/-- A cell outside the (hole-filled) valid mask was nodata right after the
combination step. -/
theorem tbNaMask_false_nodata {n m : ℕ} (dout : Grid n m ℚ) (nodata : ℚ)
    (i : Fin n) (j : Fin m) (h : tbNaMask dout nodata i j = false) :
    dout i j = nodata := by
  unfold tbNaMask at h
  split at h
  · have h2 := fillHoles_false_of_invalid _ i j h
    simpa using h2
  · simpa using h

/-- C6 counterexample: a 1×2 base raster holding (5, −9999) with nodata
−9999, incoming raster all −9999, merge rule `min`, no caps and no buffer.
The base cell (0,0) is valid (5) and not outlier-masked, yet the output is
nodata there: `mask = da1 < da2` (line 116) is `5 < -9999 = false`, so
`da_out = da1.where(mask, da2)` selects the incoming sentinel, contradicting
"no cell that is valid in either input (and not outlier-masked) becomes
no-data in the output". -/
theorem c6_counterexample :
    merge_topobathy (n := 1) (m := 2) (fun _ j => if j.val = 0 then 5 else -9999)
      (fun _ _ => -9999) (-9999) none 0 TBMethod.min none none (fun _ _ => 0)
      0 0 = -9999 ∧
    (fun (_ : Fin 1) (j : Fin 2) => if j.val = 0 then (5 : ℚ) else -9999) 0 0 ≠
      -9999 := by
  refine ⟨?_, by norm_num⟩
  rfl

/-- C6 as amended: for every pair of input rasters, merge rule, offset, caps
and buffer, the no-data footprint of `merge_topobathy`'s output equals the
complement of `na_mask` — the no-data footprint of the raster right after
rule-combination, minus interior holes enclosed by valid cells
(8-connected `binary_fill_holes` from the border, computed *before* the caps
and buffer are applied).  In particular holes open to the border remain
no-data; but, contrary to the claim, cells newly masked by the
`elv_min`/`elv_max` caps (and the buffer band) are filled back in by the
final interpolation pass rather than staying no-data, and under `min`/`max`
the combined footprint can swallow cells that are valid in one input (the
sentinel comparison), so output no-data is *not* bounded by the base
footprint.  (The external `interpolate_na` collaborator is modelled from the
spec as producing valid values at the cells it fills.) -/
theorem c6_nodata_footprint_amended {n m : ℕ} (da1 da2 : Grid n m ℚ)
    (nodata : ℚ) (da_offset : Option (Grid n m ℚ)) (merge_buffer : ℕ)
    (merge_method : TBMethod) (elv_min elv_max : Option ℚ)
    (interpVals : Grid n m ℚ) (hI : ∀ i j, interpVals i j ≠ nodata)
    (i : Fin n) (j : Fin m) :
    merge_topobathy da1 da2 nodata da_offset merge_buffer merge_method
        elv_min elv_max interpVals i j = nodata ↔
      tbNaMask (tbCombined merge_method da1 (tbOffset da2 nodata da_offset)
        nodata) nodata i j = false := by
  unfold merge_topobathy
  set da2o := tbOffset da2 nodata da_offset with hda2o
  set mask := tbMask merge_method da1 da2o nodata with hmask
  set dout := tbCombined merge_method da1 da2o nodata with hdout
  set na := tbNaMask dout nodata with hna
  set pre := tbBuffered (tbCapped dout mask da2o nodata elv_min elv_max) mask
    merge_buffer nodata with hpre
  have hpre_nd : ∀ i' j', dout i' j' = nodata → pre i' j' = nodata := by
    intro i' j' hh
    exact tbBuffered_preserves_nodata _ _ _ _ _ _
      (tbCapped_preserves_nodata _ _ _ _ _ _ _ _ hh)
  unfold tbFinal
  split
  case isTrue hex =>
    by_cases hnab : na i j = true
    · simp only [hnab, if_true]
      by_cases hp : pre i j = nodata
      · simp [hp, hI i j, hnab]
      · simp [hp, hnab]
    · have hnab' : na i j = false := by simpa using hnab
      simp [hnab', hnab]
  case isFalse hex =>
    constructor
    · intro hp
      by_contra hnab
      have hnab' : na i j = true := by simpa using hnab
      exact hex ⟨i, j, hnab', hp⟩
    · intro hnab
      exact hpre_nd i j (tbNaMask_false_nodata dout nodata i j hnab)

/-- C6 amended witness: 1×1 base all-nodata, incoming 7, rule `first`: the
merged cell is valid (not nodata), matching `na_mask = true` there. -/
theorem c6_nodata_footprint_amended_witness :
    ¬(merge_topobathy (n := 1) (m := 1) (fun _ _ => -9999) (fun _ _ => 7)
        (-9999) none 0 TBMethod.first none none (fun _ _ => 0) 0 0 = -9999) :=
  fun hx =>
    absurd ((c6_nodata_footprint_amended (n := 1) (m := 1) (fun _ _ => -9999)
      (fun _ _ => 7) (-9999) none 0 TBMethod.first none none (fun _ _ => 0)
      (fun _ _ => by norm_num) 0 0).mp hx) (by decide)

/-! ## Claim C7 -/

/-- C7: merging a raster (with a declared finite no-data value and no stray
NaN cells, as the data model requires a single no-data representation) with
itself under rule `first` with no buffer returns the original raster: same
cell values, same grid, same no-data value, same dtype.  Reprojection onto
the raster's own grid is the identity, so the external resampling outcome is
`mask_nodata` of the raster itself. -/
theorem c7_first_merge_idempotent {n m : ℕ} (da : MRaster n m) (q : ℚ)
    (interpVals : Grid n m (Option ℚ))
    (hnd : da.nodata = NData.finite q)
    (hnonan : ∀ i j, (da.data i j).isSome = true) :
    merge_dataarrays da da.data (Except.ok (maskNodataF da.data q)) none none
      none none 0 MergeMethod.first interpVals = Except.ok da := by
  obtain ⟨d, nd0, dt⟩ := da
  simp only [MRaster.nodata] at hnd
  simp only [MRaster.data] at hnonan ⊢
  subst hnd
  simp only [merge_dataarrays, _add_offset_mask_invalid, Except.ok.injEq,
    MRaster.mk.injEq, eq_self_iff_true, and_true, true_and]
  funext i j
  have hs := hnonan i j
  rw [if_neg (by decide : ¬((0 : ℕ) > 0))]
  cases hd : d i j with
  | none => rw [hd] at hs; simp at hs
  | some v =>
      by_cases hvq : v = q
      · subst hvq
        simp [maskNodataF, hd]
      · simp [maskNodataF, hd, hvq]

/-- C7 witness: a 1×1 raster with value 5, nodata −9999 and dtype tag 7
round-trips unchanged. -/
theorem c7_first_merge_idempotent_witness :
    merge_dataarrays (n := 1) (m := 1)
      ⟨fun _ _ => some 5, NData.finite (-9999), 7⟩ (fun _ _ => some 5)
      (Except.ok (maskNodataF (fun _ _ => some 5) (-9999))) none none none
      none 0 MergeMethod.first (fun _ _ => none) =
      Except.ok ⟨fun _ _ => some 5, NData.finite (-9999), 7⟩ :=
  c7_first_merge_idempotent ⟨fun _ _ => some 5, NData.finite (-9999), 7⟩
    (-9999) (fun _ _ => none) rfl (fun _ _ => rfl)

/-! ## Claim C8 -/

/-- C8 counterexample: destination grid `da_like` with a 10 m cell size,
first source with a 100 m cell size, second source with a 50 m cell size and
no explicit method.  The claim (and §4.2 of the spec) demands `bilinear`
because 50 ≥ 10, but the loop of `merge_multi_dataarrays` compares against
the first source's original cell size `dx_1 = 100` (computed at lines 67-71
and never updated after `da1` is reprojected onto `da_like`), so the code
selects `average`. -/
theorem c8_counterexample :
    loopSourceMethod none 50 100 = RMethod.average ∧
    specSourceMethod 50 10 = RMethod.bilinear ∧
    RMethod.average ≠ RMethod.bilinear := by
  refine ⟨by norm_num [loopSourceMethod], by norm_num [specSourceMethod], by decide⟩

/-- C8 as amended: for a source without an explicit resampling method, the
loop of `merge_multi_dataarrays` chooses `bilinear` when the source cell size
(in meters, at 111111 m per degree for geographic CRS) is greater than or
equal to the *first source's original* cell size `dx_1`, and `average` when
it is strictly smaller; this agrees with the spec's destination-based rule
exactly when the destination cell size equals `dx_1` (in particular when no
`da_like` is given, so the first source itself is the destination grid).  For
the first source the comparison (performed only when `da_like` is given) is
against `da_like`'s cell size, as the claim states. -/
theorem c8_resolution_rule_amended (dx1 dx2 dxLike : ℚ) :
    (loopSourceMethod none dx2 dx1 = specSourceMethod dx2 dx1) ∧
    (firstSourceMethod none true dx1 dxLike = specSourceMethod dx1 dxLike) ∧
    (loopSourceMethod none dx2 dx1 = RMethod.bilinear ↔ dx2 ≥ dx1) ∧
    (loopSourceMethod none dx2 dx1 = RMethod.average ↔ ¬dx2 ≥ dx1) := by
  refine ⟨rfl, by simp [firstSourceMethod, specSourceMethod], ?_, ?_⟩ <;>
    by_cases h : dx2 ≥ dx1 <;> simp [loopSourceMethod, h]

/-! ## Claim C10 -/

/-- C10: any source (the first one included) that supplies an explicit
`reproj_method` is reprojected with `bilinear` regardless of the supplied
method (the `else` branches at lines 87-88 and 128-129 overwrite it); the
resolution-based choice runs only when `reproj_method` is absent, and for the
first source additionally only when a destination grid `da_like` is given. -/
theorem c10_explicit_method_overridden (em : RMethod) (hasDaLike : Bool)
    (dx1 dx2 dxLike : ℚ) :
    loopSourceMethod (some em) dx2 dx1 = RMethod.bilinear ∧
    firstSourceMethod (some em) hasDaLike dx1 dxLike = RMethod.bilinear ∧
    firstSourceMethod none false dx1 dxLike = RMethod.bilinear ∧
    loopSourceMethod none dx2 dx1 =
      (if dx2 ≥ dx1 then RMethod.bilinear else RMethod.average) ∧
    firstSourceMethod none true dx1 dxLike =
      (if dx1 ≥ dxLike then RMethod.bilinear else RMethod.average) := by
  refine ⟨rfl, by simp [firstSourceMethod], by simp [firstSourceMethod], rfl,
    by simp [firstSourceMethod]⟩

/-! ## Claim C9 -/

/-- C9 evaluation: when the reprojection of the incoming raster fails (no
overlapping coverage), `merge_dataarrays` does *not* skip the source: the
bare `except:` at lines 217-218 only prints and execution falls through to
the merge, using the original un-reprojected `da2`.  Here the base is a 1×1
raster whose only cell is nodata (−9999) and the incoming raster holds 7;
the claim demands the base raster back unchanged, but the returned raster
holds 7 at the nodata cell. -/
theorem c9_failed_reprojection_still_merges :
    (merge_dataarrays (n := 1) (m := 1)
        ⟨fun _ _ => some (-9999), NData.finite (-9999), 0⟩
        (fun _ _ => some 7) (Except.error ()) none none none none 0
        MergeMethod.first (fun _ _ => none)).map (fun r => r.data 0 0) =
      Except.ok (some 7) ∧
    (some (7 : ℚ)) ≠ some (-9999) := by
  refine ⟨?_, by norm_num⟩
  rfl

end HydromtSfincs
